import Mathlib

/-!
Verification of the external-tool orchestration subsystem of a desktop
audio-converter application (source: `src/main.py`): locating the external
transcoding binary, building the ffmpeg command line from the user-chosen
options, and the worker that launches the external process and streams its
combined output back to the UI.

Paths are modelled with POSIX semantics: `os.path.basename`,
`os.path.splitext` and the two-component `os.path.join` used by the code.
-/

namespace AudioConverter

/-- `os.path.basename`: the component after the last path separator. -/
def basename (s : String) : String :=
  ⟨(s.data.reverse.takeWhile (fun c => c ≠ '/')).reverse⟩

/-- The stem part of `os.path.splitext` applied to a basename: drop the
extension at the last dot, unless every character before that dot is itself a
dot (so names such as `.bashrc` keep their leading-dot form and have no
extension). Used at src/main.py line 422. -/
def splitextStem (s : String) : String :=
  let cs := s.data
  let revTail := cs.reverse.takeWhile (fun c => c ≠ '.')
  if revTail.length = cs.length then s
  else
    let stem := cs.take (cs.length - revTail.length - 1)
    if stem.all (fun c => c = '.') then s else ⟨stem⟩

/-- `posixpath.join` on two components, as used at src/main.py line 424: if
the second component is absolute it wins; otherwise a separator is inserted
unless the first component is empty or already ends with one. -/
def joinPath (a b : String) : String :=
  if b.data.head? = some '/' then b
  else if a = "" ∨ a.data.getLast? = some '/' then a ++ b
  else a ++ "/" ++ b

/-- The output path computed at src/main.py lines 421-424:
`os.path.join(output_dir, base_name + "." + ext)` where `base_name` is the
input basename without its extension. -/
def out_path (input_path output_dir ext : String) : String :=
  joinPath output_dir (splitextStem (basename input_path) ++ "." ++ ext)

/-- The format-and-quality dependent codec arguments appended by the
if/elif chain of src/main.py lines 434-473. An unrecognised format string
falls through the whole chain and contributes no arguments. -/
def codec_args (ext quality : String) : List String :=
  if ext = "mp3" then
    ["-c:a", "libmp3lame"] ++
      (if quality = "High quality" then ["-b:a", "320k"]
       else if quality = "Smaller file" then ["-b:a", "128k"]
       else ["-b:a", "192k"])
  else if ext = "opus" then
    ["-c:a", "libopus"] ++
      (if quality = "High quality" then ["-b:a", "160k"]
       else if quality = "Smaller file" then ["-b:a", "64k"]
       else ["-b:a", "128k"])
  else if ext = "wav" then ["-c:a", "pcm_s16le"]
  else if ext = "flac" then ["-c:a", "flac"]
  else if ext = "m4a" ∨ ext = "aac" then
    ["-c:a", "aac"] ++
      (if quality = "High quality" then ["-b:a", "256k"] else ["-b:a", "192k"])
  else if ext = "ogg" then
    ["-c:a", "libvorbis"] ++
      (if quality = "High quality" then ["-q:a", "6"] else ["-q:a", "4"])
  else if ext = "wma" then ["-c:a", "wmav2", "-b:a", "192k"]
  else []

/-- The full ffmpeg argument list built by `RetroWindow.start_convert`
(src/main.py lines 421-483): tool path, overwrite flag, input flag and input
path, the drop-video-stream flag, the codec arguments, the optional loudness
filter, the optional subtitle-drop flag, and finally the output path. -/
def start_convert_cmd (ffmpeg_path input_path output_dir ext quality : String)
    (normalize strip_subs : Bool) : List String :=
  let cmd := [ffmpeg_path, "-y", "-i", input_path]
  let cmd := cmd ++ ["-vn"]
  let cmd := cmd ++ codec_args ext quality
  let cmd := cmd ++ (if normalize then ["-af", "loudnorm"] else [])
  let cmd := cmd ++ (if strip_subs then ["-sn"] else [])
  cmd ++ [out_path input_path output_dir ext]

/-- The eight format choices offered by the UI (src/main.py line 301). -/
def supportedFormats : List String :=
  ["mp3", "opus", "wav", "flac", "m4a", "aac", "ogg", "wma"]

/-- The three quality presets offered by the UI (src/main.py line 307). -/
def qualityPresets : List String :=
  ["High quality", "Balanced", "Smaller file"]

/-- The format→codec/quality table of spec §4.2, written from the words of the
spec (the encoder identifiers are the transcoding tool names for the encoders
the table lists: lame, opus, 16-bit little-endian PCM, flac, aac, vorbis,
wmav2). Only the three presets of `qualityPresets` are meaningful inputs. -/
def specCodecArgs (ext quality : String) : List String :=
  if ext = "mp3" then
    ["-c:a", "libmp3lame",
     "-b:a", if quality = "High quality" then "320k"
             else if quality = "Balanced" then "192k" else "128k"]
  else if ext = "opus" then
    ["-c:a", "libopus",
     "-b:a", if quality = "High quality" then "160k"
             else if quality = "Balanced" then "128k" else "64k"]
  else if ext = "wav" then ["-c:a", "pcm_s16le"]
  else if ext = "flac" then ["-c:a", "flac"]
  else if ext = "m4a" ∨ ext = "aac" then
    ["-c:a", "aac", "-b:a", if quality = "High quality" then "256k" else "192k"]
  else if ext = "ogg" then
    ["-c:a", "libvorbis", "-q:a", if quality = "High quality" then "6" else "4"]
  else if ext = "wma" then ["-c:a", "wmav2", "-b:a", "192k"]
  else []

/-- How the attempt to launch the child process fails, when it fails.
`subprocess.Popen` raises `FileNotFoundError` for a nonexistent executable and
other `OSError` subclasses (for example `PermissionError` for a file that is
present but not executable) otherwise. -/
inductive LaunchError
  | fileNotFound
  | permissionDenied
  | otherOSError
  deriving DecidableEq

/-- Result of the `subprocess.Popen` call made by the worker: either the
launch raised, or the child started and eventually produced a list of combined
standard-output/standard-error lines and a return code. -/
inductive LaunchResult
  | failed (e : LaunchError)
  | started (lines : List String) (returncode : Int)
  deriving DecidableEq

/-- The observable events of one worker run, in emission order: a `log_signal`
emission, the return of `process.wait()` (the child has fully terminated), or
a `finished` emission carrying the reported outcome. -/
inductive Event
  | log (s : String)
  | waited
  | finished (ok : Bool)
  deriving DecidableEq

/-- src/main.py lines 158-190 (`FfmpegWorker.run`). Only `FileNotFoundError`
is caught (line 181): that branch emits one diagnostic log line and a failure
outcome and returns. Any other launch exception propagates out of the slot
uncaught, modelled as `Except.error`. On a successful launch each combined
output line is forwarded in order, then the worker waits for termination and
reports success exactly when the return code is zero. -/
def FfmpegWorker.run (r : LaunchResult) : Except LaunchError (List Event) :=
  match r with
  | LaunchResult.failed e =>
      match e with
      | LaunchError.fileNotFound =>
          Except.ok [Event.log "ERROR: ffmpeg execution failed. Check installation.\n",
                     Event.finished false]
      | e => Except.error e
  | LaunchResult.started lines rc =>
      Except.ok (lines.map Event.log ++ [Event.waited, Event.finished (rc == 0)])

/-- The log lines contained in an event trace, in order. -/
def logsOf (es : List Event) : List String :=
  es.filterMap (fun e => match e with | Event.log s => some s | _ => none)

/-- The outcome reported by the last finished notification of a trace, if
any. -/
def outcome? (es : List Event) : Option Bool :=
  es.reverse.findSome? (fun e => match e with | Event.finished b => some b | _ => none)

/-- Whether a spawned child process is waited on by the caller.
`subprocess.call` blocks the caller until the child exits; a detached launch
(fire-and-forget) would not. -/
inductive SpawnMode
  | waitForExit
  | fireAndForget
  deriving DecidableEq

/-- One child-process launch performed by the installer flow: its argument
vector, whether it gets a new console window, and whether the caller blocks on
its completion. -/
structure Spawn where
  argv : List String
  newConsole : Bool
  mode : SpawnMode
  deriving DecidableEq

/-- src/main.py lines 25-53 (`_install_ffmpeg_windows`). After the user
confirms, `subprocess.call(["cmd", "/c", installer_path],
creationflags=CREATE_NEW_CONSOLE)` opens the installer in a new console
window and blocks until it exits. The return value of the call (`callExit`)
is discarded: the function returns True after the call unless the call itself
raised, in which case it shows an error dialog and returns False. -/
def install_ffmpeg_windows (confirmed : Bool) (installer_path : String)
    (callExit : Int) (callRaises : Bool) : List Spawn × Bool :=
  if confirmed = false then ([], false)
  else if callRaises then ([], false)
  else
    ([{ argv := ["cmd", "/c", installer_path], newConsole := true,
        mode := SpawnMode.waitForExit }], true)

/-- src/main.py lines 96-121, the Windows branch of `ensure_ffmpeg`.
`found0` and `found1` are the results of `_find_ffmpeg_binary()` before and
after the install attempt; `installer_exists` is whether `ffmpeginstall.bat`
sits next to the application. The spawns performed and the resolved tool path
are returned. -/
def ensure_ffmpeg_windows (found0 : Option String) (installer_exists : Bool)
    (installer_path : String) (confirmed : Bool) (callExit : Int)
    (callRaises : Bool) (found1 : Option String) : List Spawn × Option String :=
  match found0 with
  | some ff => ([], some ff)
  | none =>
      if installer_exists then
        let res := install_ffmpeg_windows confirmed installer_path callExit callRaises
        if res.2 then
          match found1 with
          | some ff => (res.1, some ff)
          | none => (res.1, none)
        else (res.1, none)
      else ([], none)

/-- The pieces of UI and filesystem state that `RetroWindow.start_convert`
(src/main.py lines 408-419) consults before launching a worker, plus two
facts it never consults: whether the input file still exists on disk and
whether a file already exists at the computed output path. `ffmpeg` is the
result of `ensure_ffmpeg`. -/
structure ConvertEnv where
  input_path : String
  output_dir : String
  output_dir_isdir : Bool
  ffmpeg : Option String
  input_file_exists : Bool
  output_file_exists : Bool
  deriving DecidableEq

/-- Result of one call to `RetroWindow.start_convert`: one of the two
pre-flight warning dialogs, an early return because no tool was resolved, or
the launch of a worker with a command and working directory. -/
inductive StartResult
  | warnNoInput
  | warnBadOutputDir
  | noTool
  | launch (cmd : List String) (workdir : String)
  deriving DecidableEq

/-- Whether a `StartResult` launches a worker process. -/
def StartResult.launchesProcess : StartResult → Bool
  | StartResult.launch _ _ => true
  | _ => false

/-- src/main.py lines 408-498 (`RetroWindow.start_convert`): warn if no input
path was chosen (empty string) or the output directory does not exist; return
silently if `ensure_ffmpeg` resolved no tool; otherwise build the command and
launch the worker with the output directory as working directory. -/
def start_convert (env : ConvertEnv) (ext quality : String)
    (normalize strip_subs : Bool) : StartResult :=
  if env.input_path = "" then StartResult.warnNoInput
  else if env.output_dir_isdir = false then StartResult.warnBadOutputDir
  else
    match env.ffmpeg with
    | none => StartResult.noTool
    | some ffmpeg_path =>
        StartResult.launch
          (start_convert_cmd ffmpeg_path env.input_path env.output_dir ext quality
            normalize strip_subs)
          env.output_dir

/-! ## Helper lemmas -/

theorem slash_not_mem_basename (s : String) : '/' ∉ (basename s).data := by
  intro h
  simp only [basename] at h
  rw [List.mem_reverse] at h
  have := List.mem_takeWhile_imp h
  simp at this

theorem slash_not_mem_splitextStem (s : String) (hs : '/' ∉ s.data) :
    '/' ∉ (splitextStem s).data := by
  simp only [splitextStem]
  split
  · exact hs
  · split
    · exact hs
    · intro h
      exact hs (List.mem_of_mem_take h)

theorem out_name_head_ne_slash (i ext : String) :
    (splitextStem (basename i) ++ "." ++ ext).data.head? ≠ some '/' := by
  have h1 : '/' ∉ (splitextStem (basename i)).data :=
    slash_not_mem_splitextStem _ (slash_not_mem_basename i)
  have h2 : (splitextStem (basename i) ++ "." ++ ext).data
      = ((splitextStem (basename i)).data ++ ['.']) ++ ext.data := rfl
  rw [h2]
  cases hd : (splitextStem (basename i)).data with
  | nil => simp
  | cons c cs =>
      simp only [List.cons_append, List.head?_cons, ne_eq, Option.some.injEq]
      intro hc
      subst hc
      exact h1 (by rw [hd]; exact List.mem_cons_self _ _)

theorem start_convert_cmd_eq (f i d ext q : String) (n s : Bool) :
    start_convert_cmd f i d ext q n s =
      [f, "-y", "-i", i, "-vn"] ++ codec_args ext q ++
        (if n then ["-af", "loudnorm"] else []) ++
        (if s then ["-sn"] else []) ++ [out_path i d ext] := by
  simp [start_convert_cmd, List.append_assoc]

theorem codec_args_count_loudnorm (ext q : String) :
    (codec_args ext q).count "loudnorm" = 0 := by
  unfold codec_args
  split_ifs <;> rfl

theorem sn_not_mem_codec_args (ext q : String) : "-sn" ∉ codec_args ext q := by
  unfold codec_args
  split_ifs <;> decide

theorem logsOf_map_log (lines : List String) (tail : List Event)
    (h : logsOf tail = []) : logsOf (lines.map Event.log ++ tail) = lines := by
  induction lines with
  | nil => simpa using h
  | cons a l ih => simpa [logsOf] using ih

theorem outcome?_concat (A : List Event) (b : Bool) :
    outcome? (A ++ [Event.waited, Event.finished b]) = some b := by
  simp [outcome?, List.reverse_append]

/-! ## Claim theorems -/

/-- C1: for every supported target format and every quality preset, the
command builder emits exactly the codec and bitrate/quality arguments of the
spec §4.2 table (mp3: lame with 320k/192k/128k; opus: opus with
160k/128k/64k; wav: 16-bit little-endian PCM, no bitrate; flac: flac, no
bitrate; m4a/aac: aac with 256k for High quality and 192k otherwise; ogg:
vorbis with quality 6 for High quality and 4 otherwise; wma: wmav2 with fixed
192k). -/
theorem codec_args_match_spec_table (ext quality : String)
    (hext : ext ∈ supportedFormats) (hq : quality ∈ qualityPresets) :
    codec_args ext quality = specCodecArgs ext quality := by
  fin_cases hext <;> fin_cases hq <;> rfl

/-- Witness for C1 at the example of spec §8: opus with the Smaller file
preset. -/
theorem codec_args_match_spec_table_witness :
    "opus" ∈ supportedFormats ∧ "Smaller file" ∈ qualityPresets ∧
    codec_args "opus" "Smaller file" = specCodecArgs "opus" "Smaller file" ∧
    codec_args "opus" "Smaller file" = ["-c:a", "libopus", "-b:a", "64k"] :=
  ⟨by decide, by decide,
   codec_args_match_spec_table "opus" "Smaller file" (by decide) (by decide),
   by decide⟩

/-- C2: the computed output path is exactly
`{output_directory}/{input_basename_without_extension}.{target_format}` (for
a nonempty output directory with no trailing separator, which is what the
path join produces a separator for), the overwrite flag `-y` is always the
second element of the generated command, the output path is always the last
element, and no collision check is performed: the behaviour of
`start_convert` is identical whether or not a file already exists at the
computed output path. -/
theorem out_path_formula_and_overwrite (f i d ext q : String) (n s : Bool)
    (h1 : d ≠ "") (h2 : d.data.getLast? ≠ some '/') :
    out_path i d ext = d ++ "/" ++ (splitextStem (basename i) ++ "." ++ ext) ∧
    (start_convert_cmd f i d ext q n s).get? 1 = some "-y" ∧
    "-y" ∈ start_convert_cmd f i d ext q n s ∧
    (start_convert_cmd f i d ext q n s).getLast? = some (out_path i d ext) ∧
    (∀ env : ConvertEnv, ∀ b : Bool,
      start_convert { env with output_file_exists := b } ext q n s =
        start_convert env ext q n s) := by
  refine ⟨?_, ?_, ?_, ?_, ?_⟩
  · simp only [out_path, joinPath]
    rw [if_neg (out_name_head_ne_slash i ext), if_neg (not_or.mpr ⟨h1, h2⟩)]
  · rw [start_convert_cmd_eq]; rfl
  · rw [start_convert_cmd_eq]; simp
  · rw [start_convert_cmd_eq]; exact List.getLast?_concat _
  · intro env b; cases env; rfl

/-- Witness for C2 at the example of spec §8: input `/x/song.mov`, directory
`/out`, format mp3 gives `/out/song.mp3`. -/
theorem out_path_formula_and_overwrite_witness :
    ("/out" : String) ≠ "" ∧ ("/out" : String).data.getLast? ≠ some '/' ∧
    out_path "/x/song.mov" "/out" "mp3" =
      "/out" ++ "/" ++ (splitextStem (basename "/x/song.mov") ++ "." ++ "mp3") ∧
    out_path "/x/song.mov" "/out" "mp3" = "/out/song.mp3" :=
  ⟨by decide, by decide,
   (out_path_formula_and_overwrite "/usr/bin/ffmpeg" "/x/song.mov" "/out" "mp3"
      "Balanced" true false (by decide) (by decide)).1,
   by decide⟩

/-- C3: whenever the child process starts and terminates, the worker reports
success if and only if the exit status is zero, regardless of the log lines
the child wrote: the run emits the log lines followed by the wait and a
finished notification carrying `returncode == 0`, and the reported outcome is
`true` exactly when the return code is zero. -/
theorem run_success_iff_exit_zero (lines : List String) (rc : Int) :
    FfmpegWorker.run (LaunchResult.started lines rc) =
      Except.ok (lines.map Event.log ++ [Event.waited, Event.finished (rc == 0)]) ∧
    outcome? (lines.map Event.log ++ [Event.waited, Event.finished (rc == 0)]) =
      some (rc == 0) ∧
    ((rc == 0) = true ↔ rc = 0) :=
  ⟨rfl, outcome?_concat _ _, beq_iff_eq⟩

/-- C4 counterexample: the claim says every failed launch attempt is reported
as one diagnostic log line plus a failure outcome with no exception reaching
the caller, permission errors included; but the worker only catches
`FileNotFoundError` (src/main.py line 181), so a `PermissionError` raised by
`subprocess.Popen` propagates out of `run` uncaught. -/
theorem run_permission_error_uncaught :
    (FfmpegWorker.run (LaunchResult.failed LaunchError.permissionDenied)).isOk
      = false := rfl

/-- C4 (amended): a launch attempt that fails with `FileNotFoundError` is
reported as exactly one diagnostic log line plus a failure outcome and no
exception; any other launch error (for example a permission error on the
executable) is not caught and propagates as an exception. -/
theorem run_launch_failure_handling :
    FfmpegWorker.run (LaunchResult.failed LaunchError.fileNotFound) =
      Except.ok [Event.log "ERROR: ffmpeg execution failed. Check installation.\n",
                 Event.finished false] ∧
    FfmpegWorker.run (LaunchResult.failed LaunchError.permissionDenied) =
      Except.error LaunchError.permissionDenied ∧
    FfmpegWorker.run (LaunchResult.failed LaunchError.otherOSError) =
      Except.error LaunchError.otherOSError :=
  ⟨rfl, rfl, rfl⟩

/-- C5 counterexample: the claim says the bundled installer is launched
without waiting for it to finish; but the locator launches it with
`subprocess.call`, which blocks the caller until the spawned process exits
(mode `waitForExit`, not `fireAndForget`), so the re-probe only happens after
the installer has finished. -/
theorem installer_launch_blocks :
    ((ensure_ffmpeg_windows none true "ffmpeginstall.bat" true 0 false
        (some "C:/ffmpeg/bin/ffmpeg.exe")).1.map Spawn.mode)
      = [SpawnMode.waitForExit] ∧
    SpawnMode.waitForExit ≠ SpawnMode.fireAndForget :=
  ⟨rfl, by decide⟩

/-- C5 (amended): after the user confirms, the installer is launched exactly
once, in a new console window, but the caller blocks until that call returns
before re-probing; the exit status of the call is never consulted (the spawns
and the resolved path are the same for every exit status), and the locator
re-probes the bundled location and search path afterwards regardless. -/
theorem installer_new_console_blocking (installer : String)
    (found1 : Option String) (c c' : Int) :
    ensure_ffmpeg_windows none true installer true c false found1 =
      ([{ argv := ["cmd", "/c", installer], newConsole := true,
          mode := SpawnMode.waitForExit }], found1) ∧
    ensure_ffmpeg_windows none true installer true c false found1 =
      ensure_ffmpeg_windows none true installer true c' false found1 := by
  cases found1 <;> exact ⟨rfl, rfl⟩

/-- C6: every generated command has the fixed structure: tool path, overwrite
flag, input flag immediately followed by the input path, the drop-video-stream
flag `-vn` (present for every format without exception), the codec arguments,
the optional filter arguments, and the computed output path as the final
argument. -/
theorem command_fixed_structure (f i d ext q : String) (n s : Bool) :
    start_convert_cmd f i d ext q n s =
      [f, "-y", "-i", i, "-vn"] ++ codec_args ext q ++
        (if n then ["-af", "loudnorm"] else []) ++
        (if s then ["-sn"] else []) ++ [out_path i d ext] ∧
    "-vn" ∈ start_convert_cmd f i d ext q n s ∧
    (start_convert_cmd f i d ext q n s).getLast? = some (out_path i d ext) := by
  refine ⟨start_convert_cmd_eq f i d ext q n s, ?_, ?_⟩
  · rw [start_convert_cmd_eq]; simp
  · rw [start_convert_cmd_eq]; exact List.getLast?_concat _

/-- C7: for every combination of the two toggles, the generated command
contains the loudness-normalization filter argument `loudnorm` exactly once
when the normalize flag is set and not at all when it is unset, and contains
the subtitle-drop flag `-sn` exactly when the strip-subtitles flag is set
(assuming the user-supplied paths do not themselves spell those literal
arguments). -/
theorem filter_toggle_arguments (f i d ext q : String) (n s : Bool)
    (h1 : f ≠ "loudnorm") (h2 : i ≠ "loudnorm")
    (h3 : out_path i d ext ≠ "loudnorm")
    (h4 : f ≠ "-sn") (h5 : i ≠ "-sn") (h6 : out_path i d ext ≠ "-sn") :
    (start_convert_cmd f i d ext q n s).count "loudnorm" =
      (if n then 1 else 0) ∧
    ("-sn" ∈ start_convert_cmd f i d ext q n s ↔ s = true) := by
  have hA : "loudnorm" ∉ [f, "-y", "-i", i, "-vn"] := by
    simp [Ne.symm h1, Ne.symm h2]
  have hO : "loudnorm" ∉ [out_path i d ext] := by simp [Ne.symm h3]
  rw [start_convert_cmd_eq]
  constructor
  · cases n <;> cases s <;>
      simp [List.count_append, List.count_eq_zero.mpr hA,
        List.count_eq_zero.mpr hO, codec_args_count_loudnorm,
        List.count_cons, List.count_nil, h1, h2, h3]
  · cases s
    · simp [sn_not_mem_codec_args ext q, Ne.symm h4, Ne.symm h5, Ne.symm h6]
    · simp

/-- Witness for C7: a concrete conversion with both toggles enabled. -/
theorem filter_toggle_arguments_witness :
    ("/usr/bin/ffmpeg" : String) ≠ "loudnorm" ∧
    ("/x/song.mov" : String) ≠ "loudnorm" ∧
    out_path "/x/song.mov" "/out" "mp3" ≠ "loudnorm" ∧
    ("/usr/bin/ffmpeg" : String) ≠ "-sn" ∧
    ("/x/song.mov" : String) ≠ "-sn" ∧
    out_path "/x/song.mov" "/out" "mp3" ≠ "-sn" ∧
    (start_convert_cmd "/usr/bin/ffmpeg" "/x/song.mov" "/out" "mp3" "Balanced"
        true true).count "loudnorm" = (if true then 1 else 0) ∧
    ("-sn" ∈ start_convert_cmd "/usr/bin/ffmpeg" "/x/song.mov" "/out" "mp3"
        "Balanced" true true ↔ true = true) :=
  ⟨by decide, by decide, by decide, by decide, by decide, by decide,
   (filter_toggle_arguments "/usr/bin/ffmpeg" "/x/song.mov" "/out" "mp3"
      "Balanced" true true (by decide) (by decide) (by decide) (by decide)
      (by decide) (by decide)).1,
   (filter_toggle_arguments "/usr/bin/ffmpeg" "/x/song.mov" "/out" "mp3"
      "Balanced" true true (by decide) (by decide) (by decide) (by decide)
      (by decide) (by decide)).2⟩

/-- C8: whenever the tool locator returns "not found", the conversion entry
point returns without invoking the process runner: no worker launch occurs. -/
theorem no_tool_no_launch (env : ConvertEnv) (ext q : String) (n s : Bool)
    (h : env.ffmpeg = none) :
    (start_convert env ext q n s).launchesProcess = false := by
  unfold start_convert
  rw [h]
  split_ifs <;> rfl

/-- Witness for C8: a valid request whose tool lookup failed. -/
theorem no_tool_no_launch_witness :
    (({ input_path := "/x/song.mov", output_dir := "/out",
        output_dir_isdir := true, ffmpeg := none, input_file_exists := true,
        output_file_exists := false } : ConvertEnv).ffmpeg = none) ∧
    (start_convert
        { input_path := "/x/song.mov", output_dir := "/out",
          output_dir_isdir := true, ffmpeg := none, input_file_exists := true,
          output_file_exists := false } "mp3" "Balanced" true
        false).launchesProcess = false :=
  ⟨rfl, no_tool_no_launch _ "mp3" "Balanced" true false rfl⟩

/-- C9: log lines are delivered in exactly the order the child emitted them,
and the finished notification comes strictly after the last log line and only
after the process wait has returned (the trace is the logs in order, then the
wait, then finished as the very last event). -/
theorem log_order_and_finished_last (lines : List String) (rc : Int) :
    ∃ es, FfmpegWorker.run (LaunchResult.started lines rc) = Except.ok es ∧
      logsOf es = lines ∧
      es = lines.map Event.log ++ [Event.waited, Event.finished (rc == 0)] ∧
      es.getLast? = some (Event.finished (rc == 0)) := by
  refine ⟨_, rfl, logsOf_map_log lines _ rfl, rfl, ?_⟩
  have h : lines.map Event.log ++ [Event.waited, Event.finished (rc == 0)] =
      (lines.map Event.log ++ [Event.waited]) ++ [Event.finished (rc == 0)] := by
    simp
  rw [h]
  exact List.getLast?_concat _

/-- C10: pre-flight validation checks only that the stored input path is
nonempty and that the output directory exists; it never checks that the input
file itself exists: with a nonempty input path, an existing output directory
and a resolved tool, the worker is launched, and the result is the same for
every value of the input-file-exists fact. -/
theorem preflight_ignores_input_existence (env : ConvertEnv) (ext q : String)
    (n s : Bool) (p : String) (h1 : env.input_path ≠ "")
    (h2 : env.output_dir_isdir = true) (h3 : env.ffmpeg = some p) :
    start_convert env ext q n s =
      StartResult.launch
        (start_convert_cmd p env.input_path env.output_dir ext q n s)
        env.output_dir ∧
    (∀ b, start_convert { env with input_file_exists := b } ext q n s =
      start_convert env ext q n s) := by
  constructor
  · unfold start_convert
    rw [h3, if_neg h1, if_neg (by simp [h2])]
  · intro b; cases env; rfl

/-- Witness for C10: a request whose input file is absent from disk still
reaches the worker launch. -/
theorem preflight_ignores_input_existence_witness :
    ("/x/song.mov" : String) ≠ "" ∧
    start_convert
        { input_path := "/x/song.mov", output_dir := "/out",
          output_dir_isdir := true, ffmpeg := some "/usr/bin/ffmpeg",
          input_file_exists := false, output_file_exists := false }
        "mp3" "Balanced" true false =
      StartResult.launch
        (start_convert_cmd "/usr/bin/ffmpeg" "/x/song.mov" "/out" "mp3"
          "Balanced" true false) "/out" :=
  ⟨by decide,
   (preflight_ignores_input_existence
      { input_path := "/x/song.mov", output_dir := "/out",
        output_dir_isdir := true, ffmpeg := some "/usr/bin/ffmpeg",
        input_file_exists := false, output_file_exists := false }
      "mp3" "Balanced" true false "/usr/bin/ffmpeg" (by decide) rfl rfl).1⟩

end AudioConverter
